import Mathlib

/-!
# Kinesis_LD_SetLaserSetPoint: the MEX entry point

A shallow embedding of `source/MIC/Kinesis_LD_SetLaserSetPoint/mexFunction.cpp`.

The entry point validates its two inputs, forwards them to three calls of the
Thorlabs Kinesis laser-diode SDK and wraps the two results as double scalars.
The SDK is closed source: it is a parameter of the embedding (a state type and
three transition functions), and every theorem holds for every SDK behaviour.
Each SDK call is recorded, with its arguments and its return value, in a call
log carried by the world state. The serial number reaches the SDK as a C string:
the bytes of `input_buf` before the first NUL byte.
-/

namespace Kinesis_LD_SetLaserSetPoint

/-! ## The part of the MEX API the entry point uses -/

/-- What the entry point can observe of an `mxArray`: its class name
(`mxGetClassName`), whether it has an imaginary part, its dimensions, and the
real parts of its elements in column-major order. Elements are integers: the
character codes of a char array, the values of an integer array. The element
values of an input are read only after it passed its class check. -/
structure mxArray where
  className : String
  isComplex : Bool
  dims : List Nat
  data : List Int
deriving DecidableEq

/-- What the MEX API leaves to the installation: the value `mxGetScalar` returns for an empty
array, and the local code page, which turns the UTF-16 code units of a char array into the
bytes of a C string. -/
structure MexApi where
  unspecified : Int
  localCodePage : List Int → List Nat

/-- The API call `mxIsClass(pm, classname)`: the class name of the array is the given one. -/
def mxIsClass (pm : mxArray) (classname : String) : Bool :=
  pm.className == classname

/-- The API call `mxArrayToString(pm)`: the buffer it returns holds the characters of the char
array, in column-major order, converted to the local code page and followed by a terminating
NUL byte. -/
def mxArrayToString (api : MexApi) (pm : mxArray) : List Nat :=
  api.localCodePage pm.data ++ [0]

/-- The C string a callee reads from a `char const *` that points to the buffer `buf`: the
bytes before the first NUL byte. -/
def cString (buf : List Nat) : List Nat :=
  buf.takeWhile (fun b => b != 0)

/-- The API call `mxGetScalar(pm)`: the real part of the first element. For an empty array
the API leaves the value unspecified: `api.unspecified` is that value. -/
def mxGetScalar (api : MexApi) (pm : mxArray) : Int :=
  pm.data.headD api.unspecified

/-- The API call `mxCreateDoubleScalar(value)`: a real 1-by-1 array of class double. The
values the entry point passes are 16-bit integers, which a double holds exactly. -/
def mxCreateDoubleScalar (value : Int) : mxArray :=
  { className := "double", isComplex := false, dims := [1, 1], data := [value] }

/-- The conversion `(UINT32) x` of an integer-valued double. -/
def toUINT32 (x : Int) : Nat :=
  (x % 2 ^ 32).toNat

/-- The conversion of an unsigned value to `WORD`, the 16-bit parameter type of
`LD_SetLaserSetPoint` as the comment in `mexFunction` gives it:
`short __cdecl LD_SetLaserSetPoint (char const * serialNo, WORD laserDiodeCurrent)`. -/
def toWORD (n : Nat) : Nat :=
  n % 2 ^ 16

/-! ## The vendor SDK -/

/-- The three SDK entry points the shim calls, over a device state `σ` that the shim never
inspects. Each takes the serial number as the C string it reads from its `char const *`
argument. `LD_Enable` and `LD_SetLaserSetPoint` return a `short` error code,
`LD_GetLaserSetPoint` returns the setpoint as a `WORD`. -/
structure Sdk (σ : Type) where
  LD_Enable : List Nat → σ → Int × σ
  LD_SetLaserSetPoint : List Nat → Nat → σ → Int × σ
  LD_GetLaserSetPoint : List Nat → σ → Nat × σ

/-- One SDK call as it was made: its arguments and the value it returned. -/
inductive SdkCall where
  | LD_Enable (serialNo : List Nat) (ret : Int)
  | LD_SetLaserSetPoint (serialNo : List Nat) (laserDiodeCurrent : Nat) (ret : Int)
  | LD_GetLaserSetPoint (serialNo : List Nat) (ret : Nat)
deriving DecidableEq

/-- The world outside the shim: the device state and the log of SDK calls made so far,
oldest first. -/
structure World (σ : Type) where
  dev : σ
  calls : List SdkCall

/-- The statement `LD_Enable(input_buf)`: the callee reads the C string in the buffer; the SDK
call is run and logged. -/
def callLD_Enable {σ : Type} (sdk : Sdk σ) (input_buf : List Nat) (w : World σ) :
    Int × World σ :=
  let serialNo := cString input_buf
  let r := sdk.LD_Enable serialNo w.dev
  (r.1, { dev := r.2, calls := w.calls ++ [SdkCall.LD_Enable serialNo r.1] })

/-- The expression `LD_SetLaserSetPoint(input_buf, current)`: the callee reads the C string in
the buffer, the second argument is converted to the parameter type `WORD`, the SDK call is run
and logged. -/
def callLD_SetLaserSetPoint {σ : Type} (sdk : Sdk σ) (input_buf : List Nat) (current : Nat)
    (w : World σ) : Int × World σ :=
  let serialNo := cString input_buf
  let laserDiodeCurrent := toWORD current
  let r := sdk.LD_SetLaserSetPoint serialNo laserDiodeCurrent w.dev
  (r.1, { dev := r.2,
          calls := w.calls ++ [SdkCall.LD_SetLaserSetPoint serialNo laserDiodeCurrent r.1] })

/-- The expression `LD_GetLaserSetPoint(input_buf)`: the callee reads the C string in the
buffer; the SDK call is run and logged. -/
def callLD_GetLaserSetPoint {σ : Type} (sdk : Sdk σ) (input_buf : List Nat) (w : World σ) :
    Nat × World σ :=
  let serialNo := cString input_buf
  let r := sdk.LD_GetLaserSetPoint serialNo w.dev
  (r.1, { dev := r.2, calls := w.calls ++ [SdkCall.LD_GetLaserSetPoint serialNo r.1] })

/-! ## The entry point -/

/-- How a call of the entry point ends: the message of the usage error that aborted it, if
any; the outputs it assigned, `plhs[0]` first; and the world it leaves. -/
structure MexResult (σ : Type) where
  error : Option String
  plhs : List mxArray
  world : World σ

/-- The API call `mexErrMsgTxt(msg)`: the call is aborted with the message; control does not
come back to the entry point, so nothing after it runs and no output is assigned. -/
def mexErrMsgTxt {σ : Type} (msg : String) (w : World σ) : MexResult σ :=
  { error := some msg, plhs := [], world := w }

/-- The entry point `mexFunction(nlhs, plhs, nrhs, prhs)`. `prhs` holds the `nrhs` inputs;
`nlhs` is never read; the outputs assigned to `plhs` are part of the result.
`mxFree(input_buf)` has no effect here. -/
def mexFunction {σ : Type} (sdk : Sdk σ) (api : MexApi) (nlhs : Int) (nrhs : Nat)
    (prhs : Fin nrhs → mxArray) (w : World σ) : MexResult σ :=
  if h : nrhs ≠ 2 then
    mexErrMsgTxt "Proper Usage: [Err,SetPoint]=LD_SetLaserSetPoint('SerialNoString,Current)" w
  else if !mxIsClass (prhs ⟨0, by omega⟩) "char" then
    mexErrMsgTxt "Proper Usage: [Err,SetPoint]=LD_SetLaserSetPoint('SerialNoString,Current').  First input must be character array." w
  else if !mxIsClass (prhs ⟨1, by omega⟩) "uint32" then
    mexErrMsgTxt "Proper Usage: [Err,SetPoint]=LD_SetLaserSetPoint('SerialNoString,Current').  Second Input must be uint32" w
  else
    let input_buf := mxArrayToString api (prhs ⟨0, by omega⟩)
    let Current := toUINT32 (mxGetScalar api (prhs ⟨1, by omega⟩))
    let w1 := (callLD_Enable sdk input_buf w).2
    let r2 := callLD_SetLaserSetPoint sdk input_buf Current w1
    let Err := r2.1
    let plhs0 := mxCreateDoubleScalar Err
    let r3 := callLD_GetLaserSetPoint sdk input_buf r2.2
    let plhs1 := mxCreateDoubleScalar (Int.ofNat r3.1)
    { error := none, plhs := [plhs0, plhs1], world := r3.2 }

/-! ## Sample inputs and a sample SDK, for evaluating the entry point -/

/-- The API call `mxCreateString(str)`: a 1-by-n char array holding the text. -/
def mxCreateString (str : String) : mxArray :=
  { className := "char", isComplex := false, dims := [1, str.length],
    data := str.toList.map (fun c => Int.ofNat c.toNat) }

/-- A 1-by-n char array holding the given UTF-16 code units. -/
def mxCharRow (units : List Int) : mxArray :=
  { className := "char", isComplex := false, dims := [1, units.length], data := units }

/-- The bytes of an ASCII text. -/
def asciiBytes (str : String) : List Nat :=
  str.toList.map Char.toNat

/-- A code page for evaluation: code units below 128 are kept, every other becomes `?`. -/
def asciiCodePage (units : List Int) : List Nat :=
  units.map (fun c => if 0 ≤ c ∧ c < 128 then c.toNat else 63)

/-- An installation with the code page `asciiCodePage`, where `mxGetScalar` gives 0 for an
empty array. -/
def simApi : MexApi :=
  { unspecified := 0, localCodePage := asciiCodePage }

/-- A real 1-by-1 array of class uint32 holding `c`. -/
def mxUint32Scalar (c : Nat) : mxArray :=
  { className := "uint32", isComplex := false, dims := [1, 1], data := [Int.ofNat c] }

/-- A real 1-by-1 array of the given class holding the integer `v`. -/
def mxScalarOfClass (className : String) (v : Int) : mxArray :=
  { className := className, isComplex := false, dims := [1, 1], data := [v] }

/-- State of a simulated device: whether it is reachable, whether its output is enabled, and
the setpoint it holds. -/
structure SimDev where
  connected : Bool
  enabled : Bool
  setPoint : Nat
deriving DecidableEq

/-- A simulated SDK. A reachable device accepts every request with code 0; an unreachable
one refuses with code 2 and keeps its state. The setpoint can always be read back. -/
def simSdk : Sdk SimDev where
  LD_Enable := fun _ d => if d.connected then (0, { d with enabled := true }) else (2, d)
  LD_SetLaserSetPoint := fun _ c d =>
    if d.connected then (0, { d with setPoint := c }) else (2, d)
  LD_GetLaserSetPoint := fun _ d => (d.setPoint, d)

/-- A world with a reachable device holding setpoint 0 and an empty call log. -/
def simOnline : World SimDev :=
  { dev := { connected := true, enabled := false, setPoint := 0 }, calls := [] }

/-- A world with an unreachable device holding setpoint 5 and an empty call log. -/
def simOffline : World SimDev :=
  { dev := { connected := false, enabled := false, setPoint := 5 }, calls := [] }

/-- The inputs the specification calls valid: exactly two, the first of class char and the
second of class uint32. -/
def validInputs (nrhs : Nat) (prhs : Fin nrhs → mxArray) : Prop :=
  ∃ h : nrhs = 2, (prhs ⟨0, by omega⟩).className = "char" ∧
    (prhs ⟨1, by omega⟩).className = "uint32"

/-! ## How the entry point unfolds -/

theorem mxIsClass_eq_true_iff (pm : mxArray) (classname : String) :
    mxIsClass pm classname = true ↔ pm.className = classname := by
  simp [mxIsClass]

theorem mxIsClass_eq_false_iff (pm : mxArray) (classname : String) :
    mxIsClass pm classname = false ↔ pm.className ≠ classname := by
  simp [mxIsClass]

theorem validInputs_two (prhs : Fin 2 → mxArray) :
    validInputs 2 prhs ↔ (prhs 0).className = "char" ∧ (prhs 1).className = "uint32" := by
  constructor
  · rintro ⟨_, h0, h1⟩
    exact ⟨h0, h1⟩
  · rintro ⟨h0, h1⟩
    exact ⟨rfl, h0, h1⟩

/-- The C string in the buffer `mxArrayToString` returns: the converted text up to its first
NUL byte. -/
theorem cString_mxArrayToString (api : MexApi) (pm : mxArray) :
    cString (mxArrayToString api pm) =
      (api.localCodePage pm.data).takeWhile (fun b => b != 0) := by
  unfold cString mxArrayToString
  induction api.localCodePage pm.data with
  | nil => simp
  | cons b bs ih =>
    by_cases hb : b = 0
    · simp [hb]
    · simp [List.takeWhile_cons, hb, ih]

theorem mexFunction_of_nrhs_ne {σ : Type} (sdk : Sdk σ) (api : MexApi) (nlhs : Int) (nrhs : Nat)
    (prhs : Fin nrhs → mxArray) (w : World σ) (h : nrhs ≠ 2) :
    mexFunction sdk api nlhs nrhs prhs w =
      mexErrMsgTxt "Proper Usage: [Err,SetPoint]=LD_SetLaserSetPoint('SerialNoString,Current)" w := by
  unfold mexFunction
  rw [dif_pos h]

theorem mexFunction_of_not_char {σ : Type} (sdk : Sdk σ) (api : MexApi) (nlhs : Int)
    (prhs : Fin 2 → mxArray) (w : World σ) (h : (prhs 0).className ≠ "char") :
    mexFunction sdk api nlhs 2 prhs w =
      mexErrMsgTxt "Proper Usage: [Err,SetPoint]=LD_SetLaserSetPoint('SerialNoString,Current').  First input must be character array." w := by
  have h0 : mxIsClass (prhs 0) "char" = false := (mxIsClass_eq_false_iff _ _).2 h
  unfold mexFunction
  rw [dif_neg (by decide)]
  change (if (!mxIsClass (prhs 0) "char") = true then _ else _) = _
  rw [h0]
  rfl

theorem mexFunction_of_not_uint32 {σ : Type} (sdk : Sdk σ) (api : MexApi) (nlhs : Int)
    (prhs : Fin 2 → mxArray) (w : World σ) (h0 : (prhs 0).className = "char")
    (h1 : (prhs 1).className ≠ "uint32") :
    mexFunction sdk api nlhs 2 prhs w =
      mexErrMsgTxt "Proper Usage: [Err,SetPoint]=LD_SetLaserSetPoint('SerialNoString,Current').  Second Input must be uint32" w := by
  have e0 : mxIsClass (prhs 0) "char" = true := (mxIsClass_eq_true_iff _ _).2 h0
  have e1 : mxIsClass (prhs 1) "uint32" = false := (mxIsClass_eq_false_iff _ _).2 h1
  unfold mexFunction
  rw [dif_neg (by decide)]
  change (if (!mxIsClass (prhs 0) "char") = true then _
    else if (!mxIsClass (prhs 1) "uint32") = true then _ else _) = _
  rw [e0, e1]
  rfl

/-- On valid inputs the entry point runs the three SDK calls in sequence, threading the
device state, and returns the code of the second and the value of the third. -/
theorem mexFunction_of_valid {σ : Type} (sdk : Sdk σ) (api : MexApi) (nlhs : Int)
    (prhs : Fin 2 → mxArray) (w : World σ) (h0 : (prhs 0).className = "char")
    (h1 : (prhs 1).className = "uint32") :
    mexFunction sdk api nlhs 2 prhs w =
      { error := none,
        plhs := [mxCreateDoubleScalar
            (sdk.LD_SetLaserSetPoint (cString (mxArrayToString api (prhs 0)))
              (toWORD (toUINT32 (mxGetScalar api (prhs 1))))
              (sdk.LD_Enable (cString (mxArrayToString api (prhs 0))) w.dev).2).1,
          mxCreateDoubleScalar (Int.ofNat
            (sdk.LD_GetLaserSetPoint (cString (mxArrayToString api (prhs 0)))
              (sdk.LD_SetLaserSetPoint (cString (mxArrayToString api (prhs 0)))
                (toWORD (toUINT32 (mxGetScalar api (prhs 1))))
                (sdk.LD_Enable (cString (mxArrayToString api (prhs 0))) w.dev).2).2).1)],
        world :=
          { dev := (sdk.LD_GetLaserSetPoint (cString (mxArrayToString api (prhs 0)))
              (sdk.LD_SetLaserSetPoint (cString (mxArrayToString api (prhs 0)))
                (toWORD (toUINT32 (mxGetScalar api (prhs 1))))
                (sdk.LD_Enable (cString (mxArrayToString api (prhs 0))) w.dev).2).2).2,
            calls := w.calls ++
              [SdkCall.LD_Enable (cString (mxArrayToString api (prhs 0)))
                 (sdk.LD_Enable (cString (mxArrayToString api (prhs 0))) w.dev).1,
               SdkCall.LD_SetLaserSetPoint (cString (mxArrayToString api (prhs 0)))
                 (toWORD (toUINT32 (mxGetScalar api (prhs 1))))
                 (sdk.LD_SetLaserSetPoint (cString (mxArrayToString api (prhs 0)))
                   (toWORD (toUINT32 (mxGetScalar api (prhs 1))))
                   (sdk.LD_Enable (cString (mxArrayToString api (prhs 0))) w.dev).2).1,
               SdkCall.LD_GetLaserSetPoint (cString (mxArrayToString api (prhs 0)))
                 (sdk.LD_GetLaserSetPoint (cString (mxArrayToString api (prhs 0)))
                   (sdk.LD_SetLaserSetPoint (cString (mxArrayToString api (prhs 0)))
                     (toWORD (toUINT32 (mxGetScalar api (prhs 1))))
                     (sdk.LD_Enable (cString (mxArrayToString api (prhs 0))) w.dev).2).2).1] } } := by
  have e0 : mxIsClass (prhs 0) "char" = true := (mxIsClass_eq_true_iff _ _).2 h0
  have e1 : mxIsClass (prhs 1) "uint32" = true := (mxIsClass_eq_true_iff _ _).2 h1
  unfold mexFunction
  rw [dif_neg (by decide)]
  change (if (!mxIsClass (prhs 0) "char") = true then _
    else if (!mxIsClass (prhs 1) "uint32") = true then _ else _) = _
  rw [e0, e1]
  simp [callLD_Enable, callLD_SetLaserSetPoint, callLD_GetLaserSetPoint, List.append_assoc]

/-! ## Rejected calls -/

/-- C1: a call whose number of inputs `nrhs` is not 2 fails, whatever the inputs are, with the
usage error `Proper Usage: [Err,SetPoint]=LD_SetLaserSetPoint('SerialNoString,Current)` and
assigns no output. -/
theorem wrong_argument_count_is_usage_error {σ : Type} (sdk : Sdk σ) (api : MexApi) (nlhs : Int) (nrhs : Nat)
    (prhs : Fin nrhs → mxArray) (w : World σ) (h : nrhs ≠ 2) :
    (mexFunction sdk api nlhs nrhs prhs w).error =
        some "Proper Usage: [Err,SetPoint]=LD_SetLaserSetPoint('SerialNoString,Current)" ∧
      (mexFunction sdk api nlhs nrhs prhs w).plhs = [] := by
  rw [mexFunction_of_nrhs_ne sdk api nlhs nrhs prhs w h]
  exact ⟨rfl, rfl⟩

/-- C1 at a call with three inputs, the first two of which would be valid on their own. -/
theorem wrong_argument_count_is_usage_error_witness :
    3 ≠ 2 ∧
    ((mexFunction simSdk simApi 2 3 ![mxCreateString "27000001", mxUint32Scalar 100, mxUint32Scalar 7]
          simOnline).error =
        some "Proper Usage: [Err,SetPoint]=LD_SetLaserSetPoint('SerialNoString,Current)" ∧
      (mexFunction simSdk simApi 2 3 ![mxCreateString "27000001", mxUint32Scalar 100, mxUint32Scalar 7]
          simOnline).plhs = []) :=
  ⟨by decide,
    wrong_argument_count_is_usage_error simSdk simApi 2 3
      ![mxCreateString "27000001", mxUint32Scalar 100, mxUint32Scalar 7] simOnline (by decide)⟩

/-- C2: a call with exactly two inputs whose first input is not of class char fails, whatever
the second input is, with the usage error that says the first input must be a character array,
and assigns no output. -/
theorem non_char_first_input_is_usage_error {σ : Type} (sdk : Sdk σ) (api : MexApi) (nlhs : Int)
    (prhs : Fin 2 → mxArray) (w : World σ) (h : (prhs 0).className ≠ "char") :
    (mexFunction sdk api nlhs 2 prhs w).error =
        some "Proper Usage: [Err,SetPoint]=LD_SetLaserSetPoint('SerialNoString,Current').  First input must be character array." ∧
      (mexFunction sdk api nlhs 2 prhs w).plhs = [] := by
  rw [mexFunction_of_not_char sdk api nlhs prhs w h]
  exact ⟨rfl, rfl⟩

/-- C2 at a call whose first input is a double and whose second input is a valid uint32. -/
theorem non_char_first_input_is_usage_error_witness :
    (![mxScalarOfClass "double" 27000001, mxUint32Scalar 100] 0).className ≠ "char" ∧
    ((mexFunction simSdk simApi 2 2 ![mxScalarOfClass "double" 27000001, mxUint32Scalar 100]
          simOnline).error =
        some "Proper Usage: [Err,SetPoint]=LD_SetLaserSetPoint('SerialNoString,Current').  First input must be character array." ∧
      (mexFunction simSdk simApi 2 2 ![mxScalarOfClass "double" 27000001, mxUint32Scalar 100]
          simOnline).plhs = []) :=
  ⟨by decide,
    non_char_first_input_is_usage_error simSdk simApi 2
      ![mxScalarOfClass "double" 27000001, mxUint32Scalar 100] simOnline (by decide)⟩

/-- C3: a call with exactly two inputs, the first of class char and the second not of class
uint32, fails with the usage error that says the second input must be uint32, and assigns no
output. -/
theorem non_uint32_second_input_is_usage_error {σ : Type} (sdk : Sdk σ) (api : MexApi) (nlhs : Int)
    (prhs : Fin 2 → mxArray) (w : World σ) (h0 : (prhs 0).className = "char")
    (h1 : (prhs 1).className ≠ "uint32") :
    (mexFunction sdk api nlhs 2 prhs w).error =
        some "Proper Usage: [Err,SetPoint]=LD_SetLaserSetPoint('SerialNoString,Current').  Second Input must be uint32" ∧
      (mexFunction sdk api nlhs 2 prhs w).plhs = [] := by
  rw [mexFunction_of_not_uint32 sdk api nlhs prhs w h0 h1]
  exact ⟨rfl, rfl⟩

/-- C3 at a call whose second input is a double scalar. -/
theorem non_uint32_second_input_is_usage_error_witness :
    (![mxCreateString "27000001", mxScalarOfClass "double" 100] 0).className = "char" ∧
    (![mxCreateString "27000001", mxScalarOfClass "double" 100] 1).className ≠ "uint32" ∧
    ((mexFunction simSdk simApi 2 2 ![mxCreateString "27000001", mxScalarOfClass "double" 100]
          simOnline).error =
        some "Proper Usage: [Err,SetPoint]=LD_SetLaserSetPoint('SerialNoString,Current').  Second Input must be uint32" ∧
      (mexFunction simSdk simApi 2 2 ![mxCreateString "27000001", mxScalarOfClass "double" 100]
          simOnline).plhs = []) :=
  ⟨by decide, by decide,
    non_uint32_second_input_is_usage_error simSdk simApi 2
      ![mxCreateString "27000001", mxScalarOfClass "double" 100] simOnline
      (by decide) (by decide)⟩

/-! ## Accepted calls -/

/-- C4: on valid inputs (two inputs, the first of class char, the second of class uint32), for
every `nlhs` and every SDK behaviour, no usage error is raised and exactly two outputs are
assigned, each a real 1-by-1 double; and a call raises a usage error exactly when its inputs
are not valid. -/
theorem valid_inputs_give_two_double_scalars {σ : Type} (sdk : Sdk σ) (api : MexApi) (nlhs : Int)
    (nrhs : Nat) (prhs : Fin nrhs → mxArray) (w : World σ) :
    (validInputs nrhs prhs →
      (mexFunction sdk api nlhs nrhs prhs w).error = none ∧
      (∃ err setPoint : Int, (mexFunction sdk api nlhs nrhs prhs w).plhs =
        [mxCreateDoubleScalar err, mxCreateDoubleScalar setPoint]) ∧
      (mexFunction sdk api nlhs nrhs prhs w).plhs.length = 2 ∧
      ∀ a ∈ (mexFunction sdk api nlhs nrhs prhs w).plhs,
        a.className = "double" ∧ a.isComplex = false ∧ a.dims = [1, 1] ∧ a.data.length = 1) ∧
    ((mexFunction sdk api nlhs nrhs prhs w).error ≠ none ↔ ¬ validInputs nrhs prhs) := by
  by_cases hn : nrhs = 2
  · subst hn
    by_cases h0 : (prhs 0).className = "char"
    · by_cases h1 : (prhs 1).className = "uint32"
      · have hv : validInputs 2 prhs := (validInputs_two prhs).2 ⟨h0, h1⟩
        rw [mexFunction_of_valid sdk api nlhs prhs w h0 h1]
        refine ⟨fun _ => ⟨rfl, ⟨_, _, rfl⟩, rfl, ?_⟩, ?_⟩
        · intro a ha
          simp only [List.mem_cons, List.mem_singleton, List.not_mem_nil, or_false] at ha
          rcases ha with rfl | rfl <;> exact ⟨rfl, rfl, rfl, rfl⟩
        · simp [hv]
      · have hv : ¬ validInputs 2 prhs := fun h => h1 ((validInputs_two prhs).1 h).2
        rw [mexFunction_of_not_uint32 sdk api nlhs prhs w h0 h1]
        exact ⟨fun h => absurd h hv, by simp [hv, mexErrMsgTxt]⟩
    · have hv : ¬ validInputs 2 prhs := fun h => h0 ((validInputs_two prhs).1 h).1
      rw [mexFunction_of_not_char sdk api nlhs prhs w h0]
      exact ⟨fun h => absurd h hv, by simp [hv, mexErrMsgTxt]⟩
  · have hv : ¬ validInputs nrhs prhs := fun h => hn h.1
    rw [mexFunction_of_nrhs_ne sdk api nlhs nrhs prhs w hn]
    exact ⟨fun h => absurd h hv, by simp [hv, mexErrMsgTxt]⟩

/-- C4 at a valid call that requests no output (`nlhs = 0`), on an unreachable device. -/
theorem valid_inputs_give_two_double_scalars_witness :
    validInputs 2 ![mxCreateString "27000001", mxUint32Scalar 100] ∧
    ((mexFunction simSdk simApi 0 2 ![mxCreateString "27000001", mxUint32Scalar 100]
        simOffline).error = none ∧
      (∃ err setPoint : Int,
        (mexFunction simSdk simApi 0 2 ![mxCreateString "27000001", mxUint32Scalar 100]
          simOffline).plhs = [mxCreateDoubleScalar err, mxCreateDoubleScalar setPoint]) ∧
      (mexFunction simSdk simApi 0 2 ![mxCreateString "27000001", mxUint32Scalar 100]
        simOffline).plhs.length = 2 ∧
      ∀ a ∈ (mexFunction simSdk simApi 0 2 ![mxCreateString "27000001", mxUint32Scalar 100]
          simOffline).plhs,
        a.className = "double" ∧ a.isComplex = false ∧ a.dims = [1, 1] ∧ a.data.length = 1) :=
  ⟨⟨rfl, by decide, by decide⟩,
    (valid_inputs_give_two_double_scalars simSdk simApi 0 2
      ![mxCreateString "27000001", mxUint32Scalar 100] simOffline).1
      ⟨rfl, by decide, by decide⟩⟩

/-- C5: on valid inputs the first output is a real 1-by-1 double whose single element is
exactly the code that `LD_SetLaserSetPoint` returned, whatever that code is; the call is not
aborted, whatever the codes of `LD_Enable` and `LD_SetLaserSetPoint` are; and replacing the
codes `LD_Enable` returns by any others (same effect on the device) changes neither output. -/
theorem sdk_error_code_is_passed_through {σ : Type} (sdk : Sdk σ) (api : MexApi) (nlhs : Int)
    (prhs : Fin 2 → mxArray) (w : World σ) (h0 : (prhs 0).className = "char")
    (h1 : (prhs 1).className = "uint32") :
    let serialNo := cString (mxArrayToString api (prhs 0))
    let current := toWORD (toUINT32 (mxGetScalar api (prhs 1)))
    let enabled := sdk.LD_Enable serialNo w.dev
    let code := (sdk.LD_SetLaserSetPoint serialNo current enabled.2).1
    (mexFunction sdk api nlhs 2 prhs w).error = none ∧
    (mexFunction sdk api nlhs 2 prhs w).plhs[0]? = some (mxCreateDoubleScalar code) ∧
    (mexFunction sdk api nlhs 2 prhs w).plhs[0]? =
      some { className := "double", isComplex := false, dims := [1, 1], data := [code] } ∧
    ((mexFunction sdk api nlhs 2 prhs w).plhs[0]?).map mxArray.data = some [code] ∧
    (∃ sp : Nat, (mexFunction sdk api nlhs 2 prhs w).world.calls = w.calls ++
      [SdkCall.LD_Enable serialNo enabled.1, SdkCall.LD_SetLaserSetPoint serialNo current code,
        SdkCall.LD_GetLaserSetPoint serialNo sp]) ∧
    ∀ enableCode : List Nat → σ → Int,
      (mexFunction
          { sdk with LD_Enable := fun s d => (enableCode s d, (sdk.LD_Enable s d).2) }
          api nlhs 2 prhs w).error = none ∧
      (mexFunction
          { sdk with LD_Enable := fun s d => (enableCode s d, (sdk.LD_Enable s d).2) }
          api nlhs 2 prhs w).plhs = (mexFunction sdk api nlhs 2 prhs w).plhs := by
  intro serialNo current enabled code
  refine ⟨?_, ?_, ?_, ?_, ?_, ?_⟩
  · rw [mexFunction_of_valid sdk api nlhs prhs w h0 h1]
  · rw [mexFunction_of_valid sdk api nlhs prhs w h0 h1]
    rfl
  · rw [mexFunction_of_valid sdk api nlhs prhs w h0 h1]
    rfl
  · rw [mexFunction_of_valid sdk api nlhs prhs w h0 h1]
    rfl
  · rw [mexFunction_of_valid sdk api nlhs prhs w h0 h1]
    exact ⟨_, rfl⟩
  · intro enableCode
    rw [mexFunction_of_valid _ api nlhs prhs w h0 h1,
      mexFunction_of_valid sdk api nlhs prhs w h0 h1]
    exact ⟨rfl, rfl⟩

/-- C5 on an unreachable device, where `LD_Enable` and `LD_SetLaserSetPoint` both return the
non-zero code 2: the call is not aborted and the first output holds the single element 2. -/
theorem sdk_error_code_is_passed_through_witness :
    (![mxCreateString "27000001", mxUint32Scalar 300] 0).className = "char" ∧
    (![mxCreateString "27000001", mxUint32Scalar 300] 1).className = "uint32" ∧
    ((mexFunction simSdk simApi 2 2 ![mxCreateString "27000001", mxUint32Scalar 300]
        simOffline).error = none ∧
      (mexFunction simSdk simApi 2 2 ![mxCreateString "27000001", mxUint32Scalar 300]
        simOffline).plhs[0]? = some (mxCreateDoubleScalar 2) ∧
      (mexFunction simSdk simApi 2 2 ![mxCreateString "27000001", mxUint32Scalar 300]
        simOffline).plhs[0]? =
        some { className := "double", isComplex := false, dims := [1, 1], data := [2] } ∧
      ((mexFunction simSdk simApi 2 2 ![mxCreateString "27000001", mxUint32Scalar 300]
        simOffline).plhs[0]?).map mxArray.data = some [2] ∧
      (∃ sp : Nat,
        (mexFunction simSdk simApi 2 2 ![mxCreateString "27000001", mxUint32Scalar 300]
          simOffline).world.calls = simOffline.calls ++
        [SdkCall.LD_Enable [50, 55, 48, 48, 48, 48, 48, 49] 2,
          SdkCall.LD_SetLaserSetPoint [50, 55, 48, 48, 48, 48, 48, 49] 300 2,
          SdkCall.LD_GetLaserSetPoint [50, 55, 48, 48, 48, 48, 48, 49] sp]) ∧
      ∀ enableCode : List Nat → SimDev → Int,
        (mexFunction
            { simSdk with
              LD_Enable := fun s d => (enableCode s d, (simSdk.LD_Enable s d).2) }
            simApi 2 2 ![mxCreateString "27000001", mxUint32Scalar 300] simOffline).error =
          none ∧
        (mexFunction
            { simSdk with
              LD_Enable := fun s d => (enableCode s d, (simSdk.LD_Enable s d).2) }
            simApi 2 2 ![mxCreateString "27000001", mxUint32Scalar 300] simOffline).plhs =
          (mexFunction simSdk simApi 2 2 ![mxCreateString "27000001", mxUint32Scalar 300]
            simOffline).plhs) :=
  ⟨by decide, by decide,
    sdk_error_code_is_passed_through simSdk simApi 2
      ![mxCreateString "27000001", mxUint32Scalar 300] simOffline (by decide) (by decide)⟩

/-- C6, as stated, fails: the first input is the char array with code units 50, 0, 55 (the
text `2`, NUL, `7`). Its text has three characters, but each of the three SDK calls reads the
C string in `input_buf` and receives the one-byte serial number `2`. -/
theorem sdk_receives_text_cut_at_first_nul :
    (![mxCharRow [50, 0, 55], mxUint32Scalar 120] 0).className = "char" ∧
    (![mxCharRow [50, 0, 55], mxUint32Scalar 120] 1).className = "uint32" ∧
    simApi.localCodePage (![mxCharRow [50, 0, 55], mxUint32Scalar 120] 0).data = [50, 0, 55] ∧
    (mexFunction simSdk simApi 2 2 ![mxCharRow [50, 0, 55], mxUint32Scalar 120]
        simOnline).world.calls =
      [SdkCall.LD_Enable [50] 0, SdkCall.LD_SetLaserSetPoint [50] 120 0,
        SdkCall.LD_GetLaserSetPoint [50] 120] ∧
    ¬ ∃ (enableCode : Int) (current : Nat) (code : Int) (setPoint : Nat),
      (mexFunction simSdk simApi 2 2 ![mxCharRow [50, 0, 55], mxUint32Scalar 120]
          simOnline).world.calls =
        [SdkCall.LD_Enable [50, 0, 55] enableCode,
          SdkCall.LD_SetLaserSetPoint [50, 0, 55] current code,
          SdkCall.LD_GetLaserSetPoint [50, 0, 55] setPoint] := by
  refine ⟨by decide, by decide, by decide, by decide, ?_⟩
  rintro ⟨enableCode, current, code, setPoint, h⟩
  have hcalls : (mexFunction simSdk simApi 2 2 ![mxCharRow [50, 0, 55], mxUint32Scalar 120]
      simOnline).world.calls =
      [SdkCall.LD_Enable [50] 0, SdkCall.LD_SetLaserSetPoint [50] 120 0,
        SdkCall.LD_GetLaserSetPoint [50] 120] := by decide
  rw [hcalls] at h
  have hhead := (List.cons.inj h).1
  have hserial : ([50] : List Nat) = [50, 0, 55] := (SdkCall.LD_Enable.inj hhead).1
  exact absurd hserial (by decide)

/-- C6, amended: on valid inputs the SDK calls made are exactly `LD_Enable`, then
`LD_SetLaserSetPoint`, then `LD_GetLaserSetPoint`, once each and in this order, and all three
receive the same serial number: the text of the first input in the local code page up to, and
without, its first NUL byte. When that text holds no NUL byte, it is the whole text. -/
theorem sdk_calls_are_enable_set_get {σ : Type} (sdk : Sdk σ) (api : MexApi) (nlhs : Int)
    (prhs : Fin 2 → mxArray) (w : World σ) (h0 : (prhs 0).className = "char")
    (h1 : (prhs 1).className = "uint32") :
    (∃ (enableCode : Int) (current : Nat) (code : Int) (setPoint : Nat),
      (mexFunction sdk api nlhs 2 prhs w).world.calls = w.calls ++
        [SdkCall.LD_Enable
            ((api.localCodePage (prhs 0).data).takeWhile (fun b => b != 0)) enableCode,
          SdkCall.LD_SetLaserSetPoint
            ((api.localCodePage (prhs 0).data).takeWhile (fun b => b != 0)) current code,
          SdkCall.LD_GetLaserSetPoint
            ((api.localCodePage (prhs 0).data).takeWhile (fun b => b != 0)) setPoint]) ∧
    ((∀ b ∈ api.localCodePage (prhs 0).data, b ≠ 0) →
      ∃ (enableCode : Int) (current : Nat) (code : Int) (setPoint : Nat),
        (mexFunction sdk api nlhs 2 prhs w).world.calls = w.calls ++
          [SdkCall.LD_Enable (api.localCodePage (prhs 0).data) enableCode,
            SdkCall.LD_SetLaserSetPoint (api.localCodePage (prhs 0).data) current code,
            SdkCall.LD_GetLaserSetPoint (api.localCodePage (prhs 0).data) setPoint]) := by
  have hs : cString (mxArrayToString api (prhs 0)) =
      (api.localCodePage (prhs 0).data).takeWhile (fun b => b != 0) :=
    cString_mxArrayToString api (prhs 0)
  rw [mexFunction_of_valid sdk api nlhs prhs w h0 h1, hs]
  refine ⟨⟨_, _, _, _, rfl⟩, fun hnul => ?_⟩
  have hall : (api.localCodePage (prhs 0).data).takeWhile (fun b => b != 0) =
      api.localCodePage (prhs 0).data := by
    rw [List.takeWhile_eq_self_iff]
    intro b hb
    simpa using hnul b hb
  rw [hall]
  exact ⟨_, _, _, _, rfl⟩

/-- C6, amended, on a reachable device, with the serial number `27000001`, whose bytes are
50, 55, 48, 48, 48, 48, 48, 49. -/
theorem sdk_calls_are_enable_set_get_witness :
    (![mxCreateString "27000001", mxUint32Scalar 120] 0).className = "char" ∧
    (![mxCreateString "27000001", mxUint32Scalar 120] 1).className = "uint32" ∧
    (∀ b ∈ simApi.localCodePage (![mxCreateString "27000001", mxUint32Scalar 120] 0).data,
      b ≠ 0) ∧
    ∃ (enableCode : Int) (current : Nat) (code : Int) (setPoint : Nat),
      (mexFunction simSdk simApi 2 2 ![mxCreateString "27000001", mxUint32Scalar 120]
          simOnline).world.calls = simOnline.calls ++
        [SdkCall.LD_Enable [50, 55, 48, 48, 48, 48, 48, 49] enableCode,
          SdkCall.LD_SetLaserSetPoint [50, 55, 48, 48, 48, 48, 48, 49] current code,
          SdkCall.LD_GetLaserSetPoint [50, 55, 48, 48, 48, 48, 48, 49] setPoint] :=
  ⟨by decide, by decide, by decide,
    (sdk_calls_are_enable_set_get simSdk simApi 2
      ![mxCreateString "27000001", mxUint32Scalar 120] simOnline (by decide) (by decide)).2
      (by decide)⟩

/-- C7, as stated, fails: on an unreachable device that already holds setpoint 5, a request
for current 5 makes `LD_SetLaserSetPoint` fail with code 2, and the second output is the
device's value 5, which does not differ from the second input. -/
theorem second_output_equals_request_after_failed_set :
    (mexFunction simSdk simApi 2 2 ![mxCreateString "27000001", mxUint32Scalar 5]
        simOffline).world.calls =
      [SdkCall.LD_Enable (asciiBytes "27000001") 2, SdkCall.LD_SetLaserSetPoint (asciiBytes "27000001") 5 2,
        SdkCall.LD_GetLaserSetPoint (asciiBytes "27000001") 5] ∧
    (2 : Int) ≠ 0 ∧
    (mexFunction simSdk simApi 2 2 ![mxCreateString "27000001", mxUint32Scalar 5]
        simOffline).plhs = [mxCreateDoubleScalar 2, mxCreateDoubleScalar 5] ∧
    mxGetScalar simApi (![mxCreateString "27000001", mxUint32Scalar 5] 1) = 5 ∧
    ¬ ((mexFunction simSdk simApi 2 2 ![mxCreateString "27000001", mxUint32Scalar 5]
          simOffline).plhs[1]? ≠
        some (mxCreateDoubleScalar
          (mxGetScalar simApi (![mxCreateString "27000001", mxUint32Scalar 5] 1)))) := by
  decide

/-- C7, amended: on valid inputs the second output is the double holding the value that
`LD_GetLaserSetPoint` returns in the device state `LD_SetLaserSetPoint` left, whether that call
succeeded or failed; and whenever this value is not the requested current, the second output
is not the double holding the requested current. -/
theorem second_output_is_device_setpoint {σ : Type} (sdk : Sdk σ) (api : MexApi) (nlhs : Int)
    (prhs : Fin 2 → mxArray) (w : World σ) (h0 : (prhs 0).className = "char")
    (h1 : (prhs 1).className = "uint32") :
    let serialNo := cString (mxArrayToString api (prhs 0))
    let requested := mxGetScalar api (prhs 1)
    let afterSet := (sdk.LD_SetLaserSetPoint serialNo (toWORD (toUINT32 requested))
      (sdk.LD_Enable serialNo w.dev).2).2
    let reported := (sdk.LD_GetLaserSetPoint serialNo afterSet).1
    (mexFunction sdk api nlhs 2 prhs w).plhs[1]? =
        some (mxCreateDoubleScalar (Int.ofNat reported)) ∧
      (Int.ofNat reported ≠ requested →
        (mexFunction sdk api nlhs 2 prhs w).plhs[1]? ≠ some (mxCreateDoubleScalar requested)) := by
  intro serialNo requested afterSet reported
  have hout : (mexFunction sdk api nlhs 2 prhs w).plhs[1]? =
      some (mxCreateDoubleScalar (Int.ofNat reported)) := by
    rw [mexFunction_of_valid sdk api nlhs prhs w h0 h1]
    rfl
  refine ⟨hout, fun hne heq => hne ?_⟩
  rw [hout] at heq
  have hdata := congrArg mxArray.data (Option.some.inj heq)
  simpa [mxCreateDoubleScalar] using hdata

/-- C7, amended, on a reachable device asked for 70000: the device reports 4464 and the
second output is 4464, not 70000. -/
theorem second_output_is_device_setpoint_witness :
    (![mxCreateString "27000001", mxUint32Scalar 70000] 0).className = "char" ∧
    (![mxCreateString "27000001", mxUint32Scalar 70000] 1).className = "uint32" ∧
    ((mexFunction simSdk simApi 2 2 ![mxCreateString "27000001", mxUint32Scalar 70000]
          simOnline).plhs[1]? = some (mxCreateDoubleScalar 4464) ∧
      ((4464 : Int) ≠ 70000 →
        (mexFunction simSdk simApi 2 2 ![mxCreateString "27000001", mxUint32Scalar 70000]
            simOnline).plhs[1]? ≠ some (mxCreateDoubleScalar 70000))) :=
  ⟨by decide, by decide,
    second_output_is_device_setpoint simSdk simApi 2
      ![mxCreateString "27000001", mxUint32Scalar 70000] simOnline (by decide) (by decide)⟩

/-- C8: a call that fails input validation (`nrhs` not 2, first input not char, or second
input not uint32) makes no SDK call: the call log and the device state are as before. -/
theorem rejected_call_makes_no_sdk_call {σ : Type} (sdk : Sdk σ) (api : MexApi) (nlhs : Int) (nrhs : Nat)
    (prhs : Fin nrhs → mxArray) (w : World σ) (h : ¬ validInputs nrhs prhs) :
    (mexFunction sdk api nlhs nrhs prhs w).error ≠ none ∧
    (mexFunction sdk api nlhs nrhs prhs w).world.calls = w.calls ∧
    (mexFunction sdk api nlhs nrhs prhs w).world.dev = w.dev := by
  by_cases hn : nrhs = 2
  · subst hn
    by_cases h0 : (prhs 0).className = "char"
    · by_cases h1 : (prhs 1).className = "uint32"
      · exact absurd ((validInputs_two prhs).2 ⟨h0, h1⟩) h
      · rw [mexFunction_of_not_uint32 sdk api nlhs prhs w h0 h1]
        exact ⟨by simp [mexErrMsgTxt], rfl, rfl⟩
    · rw [mexFunction_of_not_char sdk api nlhs prhs w h0]
      exact ⟨by simp [mexErrMsgTxt], rfl, rfl⟩
  · rw [mexFunction_of_nrhs_ne sdk api nlhs nrhs prhs w hn]
    exact ⟨by simp [mexErrMsgTxt], rfl, rfl⟩

/-- C8 at a call whose second input is an int32, on a reachable device. -/
theorem rejected_call_makes_no_sdk_call_witness :
    ¬ validInputs 2 ![mxCreateString "27000001", mxScalarOfClass "int32" 100] ∧
    ((mexFunction simSdk simApi 2 2 ![mxCreateString "27000001", mxScalarOfClass "int32" 100]
        simOnline).error ≠ none ∧
      (mexFunction simSdk simApi 2 2 ![mxCreateString "27000001", mxScalarOfClass "int32" 100]
        simOnline).world.calls = simOnline.calls ∧
      (mexFunction simSdk simApi 2 2 ![mxCreateString "27000001", mxScalarOfClass "int32" 100]
        simOnline).world.dev = simOnline.dev) :=
  ⟨fun h => absurd ((validInputs_two _).1 h).2 (by decide),
    rejected_call_makes_no_sdk_call simSdk simApi 2 2
      ![mxCreateString "27000001", mxScalarOfClass "int32" 100] simOnline
      (fun h => absurd ((validInputs_two _).1 h).2 (by decide))⟩

/-- C9: on valid inputs whose second input is the uint32 scalar `c`, the current
`LD_SetLaserSetPoint` receives through its `WORD` parameter is `c mod 2^16`: it is `c` when
`c < 65536`, it is a different value when `c >= 65536`, and no usage error is raised. -/
theorem current_is_sent_modulo_65536 {σ : Type} (sdk : Sdk σ) (api : MexApi) (nlhs : Int)
    (prhs : Fin 2 → mxArray) (w : World σ) (c : Nat) (h0 : (prhs 0).className = "char")
    (h1 : (prhs 1).className = "uint32") (hd : (prhs 1).data = [Int.ofNat c]) :
    (mexFunction sdk api nlhs 2 prhs w).error = none ∧
    (∃ (enableCode code : Int) (setPoint : Nat),
      (mexFunction sdk api nlhs 2 prhs w).world.calls = w.calls ++
        [SdkCall.LD_Enable (cString (mxArrayToString api (prhs 0))) enableCode,
          SdkCall.LD_SetLaserSetPoint (cString (mxArrayToString api (prhs 0))) (c % 2 ^ 16) code,
          SdkCall.LD_GetLaserSetPoint (cString (mxArrayToString api (prhs 0))) setPoint]) ∧
    (c < 65536 → c % 2 ^ 16 = c) ∧
    (65536 ≤ c → c % 2 ^ 16 ≠ c ∧ c % 2 ^ 16 < 65536) := by
  have hcur : toWORD (toUINT32 (mxGetScalar api (prhs 1))) = c % 2 ^ 16 := by
    have hs : mxGetScalar api (prhs 1) = Int.ofNat c := by simp [mxGetScalar, hd]
    rw [hs]
    unfold toWORD toUINT32
    norm_num
    omega
  rw [mexFunction_of_valid sdk api nlhs prhs w h0 h1, hcur]
  refine ⟨rfl, ⟨_, _, _, rfl⟩, ?_, ?_⟩
  · intro hlt
    norm_num
    omega
  · intro hge
    norm_num
    omega

/-- C9 at the current 70000: `LD_SetLaserSetPoint` receives 4464. -/
theorem current_is_sent_modulo_65536_witness :
    (![mxCreateString "27000001", mxUint32Scalar 70000] 0).className = "char" ∧
    (![mxCreateString "27000001", mxUint32Scalar 70000] 1).className = "uint32" ∧
    (![mxCreateString "27000001", mxUint32Scalar 70000] 1).data = [Int.ofNat 70000] ∧
    ((mexFunction simSdk simApi 1 2 ![mxCreateString "27000001", mxUint32Scalar 70000]
        simOnline).error = none ∧
      (∃ (enableCode code : Int) (setPoint : Nat),
        (mexFunction simSdk simApi 1 2 ![mxCreateString "27000001", mxUint32Scalar 70000]
            simOnline).world.calls = simOnline.calls ++
          [SdkCall.LD_Enable (asciiBytes "27000001") enableCode,
            SdkCall.LD_SetLaserSetPoint (asciiBytes "27000001") 4464 code,
            SdkCall.LD_GetLaserSetPoint (asciiBytes "27000001") setPoint]) ∧
      (70000 < 65536 → 70000 % 2 ^ 16 = 70000) ∧
      (65536 ≤ 70000 → 70000 % 2 ^ 16 ≠ 70000 ∧ 70000 % 2 ^ 16 < 65536)) :=
  ⟨by decide, by decide, by decide,
    current_is_sent_modulo_65536 simSdk simApi 1
      ![mxCreateString "27000001", mxUint32Scalar 70000] simOnline 70000
      (by decide) (by decide) (by decide)⟩

/-- C10: the checks run in the order argument count, class of the first input, class of the
second input, and the first that fails decides the message: two inputs that are both of the
wrong class give the first-input message; a char first input with a wrong second input gives
the second-input message; and with `nrhs` not 2 the argument-count message is given and the
whole result is the same whatever the inputs are. -/
theorem input_checks_run_in_order {σ : Type} (sdk : Sdk σ) (api : MexApi) (nlhs : Int) (w : World σ) :
    (∀ prhs : Fin 2 → mxArray,
      (prhs 0).className ≠ "char" → (prhs 1).className ≠ "uint32" →
      (mexFunction sdk api nlhs 2 prhs w).error =
        some "Proper Usage: [Err,SetPoint]=LD_SetLaserSetPoint('SerialNoString,Current').  First input must be character array.") ∧
    (∀ prhs : Fin 2 → mxArray,
      (prhs 0).className = "char" → (prhs 1).className ≠ "uint32" →
      (mexFunction sdk api nlhs 2 prhs w).error =
        some "Proper Usage: [Err,SetPoint]=LD_SetLaserSetPoint('SerialNoString,Current').  Second Input must be uint32") ∧
    (∀ (nrhs : Nat) (prhs other : Fin nrhs → mxArray), nrhs ≠ 2 →
      (mexFunction sdk api nlhs nrhs prhs w).error =
          some "Proper Usage: [Err,SetPoint]=LD_SetLaserSetPoint('SerialNoString,Current)" ∧
        mexFunction sdk api nlhs nrhs other w = mexFunction sdk api nlhs nrhs prhs w) := by
  refine ⟨?_, ?_, ?_⟩
  · intro prhs h0 _
    rw [mexFunction_of_not_char sdk api nlhs prhs w h0]
    rfl
  · intro prhs h0 h1
    rw [mexFunction_of_not_uint32 sdk api nlhs prhs w h0 h1]
    rfl
  · intro nrhs prhs other hn
    rw [mexFunction_of_nrhs_ne sdk api nlhs nrhs prhs w hn,
      mexFunction_of_nrhs_ne sdk api nlhs nrhs other w hn]
    exact ⟨rfl, rfl⟩

/-- C10 at two inputs that are both of the wrong class (a double and an int32), and at a
single input compared with a different single input. -/
theorem input_checks_run_in_order_witness :
    ((![mxScalarOfClass "double" 1, mxScalarOfClass "int32" 2] 0).className ≠ "char" ∧
      (![mxScalarOfClass "double" 1, mxScalarOfClass "int32" 2] 1).className ≠ "uint32" ∧
      (mexFunction simSdk simApi 2 2 ![mxScalarOfClass "double" 1, mxScalarOfClass "int32" 2]
          simOnline).error =
        some "Proper Usage: [Err,SetPoint]=LD_SetLaserSetPoint('SerialNoString,Current').  First input must be character array.") ∧
    (1 ≠ 2 ∧
      (mexFunction simSdk simApi 2 1 ![mxCreateString "27000001"] simOnline).error =
          some "Proper Usage: [Err,SetPoint]=LD_SetLaserSetPoint('SerialNoString,Current)" ∧
        mexFunction simSdk simApi 2 1 ![mxUint32Scalar 9] simOnline =
          mexFunction simSdk simApi 2 1 ![mxCreateString "27000001"] simOnline) :=
  ⟨⟨by decide, by decide,
      (input_checks_run_in_order simSdk simApi 2 simOnline).1
        ![mxScalarOfClass "double" 1, mxScalarOfClass "int32" 2] (by decide) (by decide)⟩,
    by decide,
    (input_checks_run_in_order simSdk simApi 2 simOnline).2.2 1
      ![mxCreateString "27000001"] ![mxUint32Scalar 9] (by decide)⟩

end Kinesis_LD_SetLaserSetPoint
